import Mathlib

/-!
Formal model of `relative_performer/train.py` (class `RelativePerformerModel`).

Tensors are modelled as a shape (a list of axis lengths), a device tag, a
dtype tag, and a total data function from multi-indices to rational values.
Machine floating point is abstracted to `ℚ`; the transcendental `sin`/`cos`
used by the sinusoid encoding are abstracted as explicit function arguments
`qsin qcos : ℚ → ℚ` (no claim below depends on their values).

Fallible tensor operations (shape mismatches, invalid `expand` sizes,
out-of-range indexing, `torch.cat` device mismatches) return
`Except String Tensor`, mirroring the exceptions PyTorch raises.

The components imported from `relative_performer/constrained_relative_encoding.py`
(`LearnableSinusoidEncoding`, `RelativePerformer`) are not part of the given
sources; they are modelled from the specification, as marked in their doc
comments.  Everything else is translated directly from `train.py`.
-/

/-- Device tag of a tensor (`torch.device`). -/
inductive Device where
  | cpu : Device
  | cuda : Nat → Device
  deriving DecidableEq, Repr

/-- Floating-point dtype tag of a tensor. -/
inductive Dtype where
  | float16 : Dtype
  | float32 : Dtype
  | float64 : Dtype
  deriving DecidableEq, Repr

/-- Precision order used for dtype promotion in `torch.cat`. -/
def Dtype.precision : Dtype → Nat
  | .float16 => 0
  | .float32 => 1
  | .float64 => 2

/-- Dtype promotion: the higher-precision dtype wins. -/
def promoteDtype (a b : Dtype) : Dtype :=
  if a.precision ≤ b.precision then b else a

/-- A tensor: shape, device, dtype, and a total data function on
multi-indices.  Indices outside the shape are unconstrained. -/
structure Tensor where
  shape : List Nat
  device : Device
  dtype : Dtype
  data : List Nat → ℚ

/-- Whether an `Except`-valued tensor computation raised. -/
def isErr {α : Type} : Except String α → Bool
  | .ok _ => false
  | .error _ => true

/-- `torch.arange(0, n, device=device, dtype=dtype)`:
a 1-D tensor with values `0, 1, ..., n-1`, on the given device/dtype. -/
def arange (n : Nat) (device : Device) (dtype : Dtype) : Tensor :=
  { shape := [n], device := device, dtype := dtype,
    data := fun idx => (idx.headD 0 : ℚ) }

/-- `torch.meshgrid(a, b)` with the default `ij` indexing, for 1-D inputs of
lengths `na` and `nb`: two `[na, nb]` grids, the first repeating `a` along
rows, the second repeating `b` along columns. -/
def meshgrid2 (a b : Tensor) : Tensor × Tensor :=
  ({ shape := [a.shape.headD 0, b.shape.headD 0], device := a.device, dtype := a.dtype,
     data := fun idx => a.data [idx.headD 0] },
   { shape := [a.shape.headD 0, b.shape.headD 0], device := b.device, dtype := b.dtype,
     data := fun idx => b.data [idx.getD 1 0] })

/-- `torch.stack((a, b), axis=-1)` for two tensors of equal shape: appends a
new trailing axis of length 2 selecting between the two inputs. -/
def stackLast2 (a b : Tensor) : Tensor :=
  { shape := a.shape ++ [2], device := a.device, dtype := a.dtype,
    data := fun idx =>
      if idx.getLastD 0 = 0 then a.data idx.dropLast else b.data idx.dropLast }

/-- `torch.zeros(n0, n1, n2)` with no `device=`/`dtype=` argument: the tensor
is created on the default device (CPU) with the default dtype (float32),
exactly as at `train.py:96`. -/
def zeros3 (n0 n1 n2 : Nat) : Tensor :=
  { shape := [n0, n1, n2], device := Device.cpu, dtype := Dtype.float32,
    data := fun _ => 0 }

/-- `torch.cat([a, b], axis=1)` for 3-D tensors: succeeds when the
non-concatenated axes agree and the devices agree (PyTorch raises on a
device mismatch); dtypes are promoted. -/
def cat1 (a b : Tensor) : Except String Tensor :=
  match a.shape, b.shape with
  | [a0, a1, a2], [b0, b1, b2] =>
    if a0 = b0 ∧ a2 = b2 ∧ a.device = b.device then
      .ok { shape := [a0, a1 + b1, a2], device := a.device,
            dtype := promoteDtype a.dtype b.dtype,
            data := fun idx =>
              if idx.getD 1 0 < a1 then a.data idx
              else b.data [idx.getD 0 0, idx.getD 1 0 - a1, idx.getD 2 0] }
    else .error "cat: shape or device mismatch"
  | _, _ => .error "cat: expected 3-dimensional tensors"

/-- `t[None, None, :]` for a tensor `t`: two new leading axes of length 1. -/
def Tensor.unsqueeze01 (t : Tensor) : Tensor :=
  { shape := 1 :: 1 :: t.shape, device := t.device, dtype := t.dtype,
    data := fun idx => t.data (idx.drop 2) }

/-- `t.expand(sizes)`: each requested size must equal the existing size, or
the existing size must be 1 (which is then broadcast).  PyTorch raises
otherwise. -/
def Tensor.expand (t : Tensor) (sizes : List Nat) : Except String Tensor :=
  if t.shape.length = sizes.length
      ∧ ∀ i, i < sizes.length →
          (sizes.getD i 0 = t.shape.getD i 0 ∨ t.shape.getD i 0 = 1) then
    .ok { shape := sizes, device := t.device, dtype := t.dtype,
          data := fun idx =>
            t.data ((List.range t.shape.length).map
              (fun i => if t.shape.getD i 0 = 1 then 0 else idx.getD i 0)) }
  else .error "expand: requested sizes incompatible with tensor shape"

/-- `t[:, 0]` for a 3-D tensor `[b, n, d]`: selects index 0 on axis 1,
raising when that axis is empty (`n = 0`), as PyTorch does. -/
def selectSeq0 (t : Tensor) : Except String Tensor :=
  match t.shape with
  | [b, n, d] =>
    if 0 < n then
      .ok { shape := [b, d], device := t.device, dtype := t.dtype,
            data := fun idx => t.data [idx.getD 0 0, 0, idx.getD 1 0] }
    else .error "index 0 is out of bounds for dimension 1 with size 0"
  | _ => .error "select: expected a 3-dimensional tensor"

/-- `einops.rearrange(t, 'b x y d -> b (x y) d')`: row-major merge of the two
middle axes of a 4-D tensor. -/
def rearrange_b_xy_d (t : Tensor) : Except String Tensor :=
  match t.shape with
  | [b, x, y, d] =>
    .ok { shape := [b, x * y, d], device := t.device, dtype := t.dtype,
          data := fun idx =>
            t.data [idx.getD 0 0, idx.getD 1 0 / y, idx.getD 1 0 % y, idx.getD 2 0] }
  | _ => .error "rearrange: expected pattern b x y d"

/-- `einops.rearrange(t, 'x y d -> 1 (x y) d')`: row-major flatten of a 3-D
tensor with a new leading batch axis of length 1. -/
def rearrange_xy_d_1 (t : Tensor) : Except String Tensor :=
  match t.shape with
  | [x, y, d] =>
    .ok { shape := [1, x * y, d], device := t.device, dtype := t.dtype,
          data := fun idx =>
            t.data [idx.getD 1 0 / y, idx.getD 1 0 % y, idx.getD 2 0] }
  | _ => .error "rearrange: expected pattern x y d"

/-- `einops.rearrange(t, 'b n p d -> b n (p d)')`: merge of the two trailing
axes of a 4-D tensor. -/
def rearrange_bn_pd (t : Tensor) : Except String Tensor :=
  match t.shape with
  | [b, n, p, d] =>
    .ok { shape := [b, n, p * d], device := t.device, dtype := t.dtype,
          data := fun idx =>
            t.data [idx.getD 0 0, idx.getD 1 0, idx.getD 2 0 / d, idx.getD 2 0 % d] }
  | _ => .error "rearrange: expected pattern b n p d"

/-- Finite sum `f 0 + f 1 + ... + f (n-1)` over `ℚ`. -/
def sumRange (n : Nat) (f : Nat → ℚ) : ℚ :=
  match n with
  | 0 => 0
  | m + 1 => sumRange m f + f m

/-- `torch.nn.Linear(in_features, out_features)`: an affine map applied to
the trailing axis.  The weight matrix is indexed `[out, in]` and the learned
values are abstract fields (they are set by random initialisation and
training, both external). -/
structure Linear where
  in_features : Nat
  out_features : Nat
  weight : Nat → Nat → ℚ
  bias : Nat → ℚ

/-- Application of `nn.Linear` to a tensor `[*, in_features]`; raises on a
trailing-axis mismatch as PyTorch's matmul does. -/
def Linear.forward (L : Linear) (x : Tensor) : Except String Tensor :=
  if x.shape ≠ [] ∧ x.shape.getLastD 0 = L.in_features then
    .ok { shape := x.shape.dropLast ++ [L.out_features],
          device := x.device, dtype := x.dtype,
          data := fun idx =>
            sumRange L.in_features
              (fun i => L.weight (idx.getLastD 0) i * x.data (idx.dropLast ++ [i]))
              + L.bias (idx.getLastD 0) }
  else .error "linear: trailing axis does not match in_features"

/-- Modelled from the spec: `LearnableSinusoidEncoding` lives in
`relative_performer/constrained_relative_encoding.py`, which is not among the
given sources.  Per the spec it is configured by `{num_bands (= pos_scales),
max_timescale_init}`, keeps one learnable timescale (equivalently inverse
frequency, the factor `2π / t` of §4.1 step 3) per frequency band, and maps a
position tensor `[..., pos_dims]` to `num_bands` (sin, cos) pairs per
coordinate.  The final per-element embedding width is
`pos_dims * num_bands * 2` while the caller passes `pos_scales * 2` as the
first constructor argument (`train.py:23-24`), so that argument is the
per-coordinate embedding width `dim = 2 * num_bands`; and the caller flattens
with the 4-axis pattern `b n p d -> b n (p d)` (`train.py:71-72`), so the
`(num_bands, 2)` axes are produced already flattened into one trailing axis
of width `dim`. -/
structure LearnableSinusoidEncoding where
  dim : Nat
  max_timescale_init : ℚ
  inverse_frequency : Nat → ℚ

/-- Modelled from the spec: constructor of `LearnableSinusoidEncoding`.  The
geometric initialisation of the learnable timescales involves real powers and
is abstracted: the parameter value is supplied by the environment (it is
trainable, so its value at forward time is arbitrary anyway).  No validation
is specified for the constructor and none is performed. -/
def LearnableSinusoidEncoding.init (dim : Nat) (max_timescale_init : ℚ)
    (invFreqInit : Nat → ℚ) : LearnableSinusoidEncoding :=
  { dim := dim, max_timescale_init := max_timescale_init,
    inverse_frequency := invFreqInit }

/-- Number of frequency bands of the encoder: half its per-coordinate
embedding width. -/
def LearnableSinusoidEncoding.num_bands (e : LearnableSinusoidEncoding) : Nat :=
  e.dim / 2

/-- Modelled from the spec: forward pass of `LearnableSinusoidEncoding`.
Each position scalar `p` becomes the `dim`-wide vector of interleaved
`(sin, cos)` values at angles `p * inverse_frequency[band]`, appended as a
new trailing axis; device and dtype follow the input.  `qsin`/`qcos`
abstract the transcendental functions. -/
def LearnableSinusoidEncoding.forward (e : LearnableSinusoidEncoding)
    (qsin qcos : ℚ → ℚ) (x : Tensor) : Tensor :=
  { shape := x.shape ++ [e.dim], device := x.device, dtype := x.dtype,
    data := fun idx =>
      let angle := x.data idx.dropLast * e.inverse_frequency (idx.getLastD 0 / 2)
      if idx.getLastD 0 % 2 = 0 then qsin angle else qcos angle }

/-- Modelled from the spec: the external `RelativePerformer` capability
(spec §4.4), configured by `dim, depth, heads, pos_dims, pos_scales`
(`train.py:27-33`).  Only its configuration is recorded; its attention
internals are out of scope. -/
structure RelativePerformer where
  dim : Nat
  depth : Nat
  heads : Nat
  pos_dims : Nat
  pos_scales : Nat

/-- Modelled from the spec: the consumed contract
`forward(content [b, seq, dim], pos [b, seq, pos_dim]) -> out [b, seq, dim]`
(spec §4.4), with the position batch axis allowed to be 1 (broadcast at use
time, spec §4.2).  The contextualisation itself is out of scope; only the
shape contract is modelled, so the output carries the content tensor's shape,
device, dtype and values. -/
def RelativePerformer.forward (P : RelativePerformer) (content pos : Tensor) :
    Except String Tensor :=
  match content.shape, pos.shape with
  | [b, seq, d], [pb, pseq, _] =>
    if d = P.dim ∧ pseq = seq ∧ (pb = b ∨ pb = 1) then
      .ok { shape := [b, seq, d], device := content.device,
            dtype := content.dtype, data := content.data }
    else .error "performer: content and positional sequences misaligned"
  | _, _ => .error "performer: expected 3-dimensional tensors"

/-- `RelativePerformerModel` (`train.py:18-39`): the learned submodules and
parameters of the Lightning module. -/
structure RelativePerformerModel where
  positional_embedding : LearnableSinusoidEncoding
  content_embedding : Linear
  class_query : Tensor
  performer : RelativePerformer
  output_layer : Linear

/-- The module built by `RelativePerformerModel.__init__` (`train.py:19-36`)
from its configuration.  Learned parameter values (linear weights and biases,
the class query initialised by `nn.init.normal_`, the encoder's inverse
frequencies) are supplied by the environment, as is the device/dtype the
training framework placed the `class_query` parameter on. -/
def mkModel (dim depth heads pos_scales in_features pos_dims max_pos num_classes : Nat)
    (contentW : Nat → Nat → ℚ) (contentB : Nat → ℚ)
    (queryData : List Nat → ℚ) (queryDevice : Device) (queryDtype : Dtype)
    (outW : Nat → Nat → ℚ) (outB : Nat → ℚ)
    (invFreq : Nat → ℚ) : RelativePerformerModel :=
  { positional_embedding :=
      LearnableSinusoidEncoding.init (pos_scales * 2) ((max_pos : ℚ) * 2) invFreq
    content_embedding :=
      { in_features := in_features, out_features := dim,
        weight := contentW, bias := contentB }
    class_query :=
      { shape := [dim], device := queryDevice, dtype := queryDtype,
        data := queryData }
    performer :=
      { dim := dim, depth := depth, heads := heads,
        pos_dims := pos_dims, pos_scales := pos_scales }
    output_layer :=
      { in_features := dim, out_features := num_classes,
        weight := outW, bias := outB } }

/-- `RelativePerformerModel.__init__` as a fallible constructor: the body
(`train.py:19-36`) contains no validation and no raise, and the modelled
sub-constructors raise nothing, so every configuration yields a module. -/
def RelativePerformerModel.init
    (dim depth heads pos_scales in_features pos_dims max_pos num_classes : Nat)
    (contentW : Nat → Nat → ℚ) (contentB : Nat → ℚ)
    (queryData : List Nat → ℚ) (queryDevice : Device) (queryDtype : Dtype)
    (outW : Nat → Nat → ℚ) (outB : Nat → ℚ)
    (invFreq : Nat → ℚ) : Except String RelativePerformerModel :=
  .ok (mkModel dim depth heads pos_scales in_features pos_dims max_pos num_classes
    contentW contentB queryData queryDevice queryDtype outW outB invFreq)

/-- `RelativePerformerModel._flatten_to_sequence` (`train.py:47-67`): reads
`nx, ny` from the input shape, builds the position grid with `arange` on the
input's device and dtype, stacks the `meshgrid`, and row-major flattens both
the embeddings and the positions. -/
def RelativePerformerModel._flatten_to_sequence
    (_self : RelativePerformerModel) (input : Tensor) :
    Except String (Tensor × Tensor) :=
  match input.shape with
  | [_, nx, ny, _] =>
    let x_pos := arange nx input.device input.dtype
    let y_pos := arange ny input.device input.dtype
    let mg := meshgrid2 x_pos y_pos
    let positions := stackLast2 mg.1 mg.2
    do
      let emb ← rearrange_b_xy_d input
      let pos ← rearrange_xy_d_1 positions
      return (emb, pos)
  | _ => .error "flatten: expected a 4-dimensional input"

/-- `RelativePerformerModel._compute_positional_embeddings`
(`train.py:69-72`). -/
def RelativePerformerModel._compute_positional_embeddings
    (self : RelativePerformerModel) (qsin qcos : ℚ → ℚ) (positions : Tensor) :
    Except String Tensor :=
  rearrange_bn_pd (self.positional_embedding.forward qsin qcos positions)

/-- `RelativePerformerModel._add_class_query` (`train.py:74-101`): unpacks
`bs, *_, pos_embedding_dim = pos_embedding.shape` (a `ValueError` when the
shape has fewer than two entries), prepends the expanded class query to the
embeddings and a `torch.zeros(1, 1, pos_embedding_dim)` prefix to the
positional embeddings. -/
def RelativePerformerModel._add_class_query (self : RelativePerformerModel)
    (embedding pos_embedding : Tensor) : Except String (Tensor × Tensor) :=
  match pos_embedding.shape with
  | [] => .error "unpack: not enough values"
  | bs :: rest =>
    if rest = [] then .error "unpack: not enough values"
    else
      do
        let q ← (self.class_query.unsqueeze01).expand [bs, 1, 1]
        let embedding2 ← cat1 q embedding
        let pos_embedding2 ← cat1 (zeros3 1 1 (rest.getLastD 0)) pos_embedding
        return (embedding2, pos_embedding2)

/-- The two sequences `forward` hands to `self.performer`
(`train.py:104-106, 108`): the content embedding, flattened, and the
positional embeddings.  (`forward` never calls `_add_class_query`.) -/
def RelativePerformerModel.performerInputs (self : RelativePerformerModel)
    (qsin qcos : ℚ → ℚ) (x : Tensor) : Except String (Tensor × Tensor) := do
  let embedding ← self.content_embedding.forward x
  let fp ← self._flatten_to_sequence embedding
  let positions ← self._compute_positional_embeddings qsin qcos fp.2
  return (fp.1, positions)

/-- `RelativePerformerModel.forward` (`train.py:103-109`). -/
def RelativePerformerModel.forward (self : RelativePerformerModel)
    (qsin qcos : ℚ → ℚ) (x : Tensor) : Except String Tensor := do
  let ep ← self.performerInputs qsin qcos x
  let outSeq ← self.performer.forward ep.1 ep.2
  let out ← selectSeq0 outSeq
  self.output_layer.forward out

/-- State-passing reading of `forward`: the method body (`train.py:103-109`)
assigns to no attribute of `self`, so the post-state equals the argument
module unchanged. -/
def RelativePerformerModel.forwardWithState (self : RelativePerformerModel)
    (qsin qcos : ℚ → ℚ) (x : Tensor) :
    Except String Tensor × RelativePerformerModel :=
  (self.forward qsin qcos x, self)

/-! ### Helper lemmas -/

instance {ε α : Type} [DecidableEq ε] [DecidableEq α] : DecidableEq (Except ε α) :=
  fun x y =>
    match x, y with
    | .ok a, .ok b => decidable_of_iff (a = b) (by simp)
    | .error e, .error f => decidable_of_iff (e = f) (by simp)
    | .ok _, .error _ => isFalse (by simp)
    | .error _, .ok _ => isFalse (by simp)

@[simp]
theorem ok_bind {α β : Type} (a : α) (f : α → Except String β) :
    (Except.ok a >>= f) = f a := rfl

@[simp]
theorem error_bind {α β : Type} (e : String) (f : α → Except String β) :
    ((Except.error e : Except String α) >>= f) = Except.error e := rfl

@[simp]
theorem map_ok {α β : Type} (a : α) (f : α → β) :
    (Except.ok a : Except String α).map f = Except.ok (f a) := rfl

@[simp]
theorem map_error {α β : Type} (e : String) (f : α → β) :
    (Except.error e : Except String α).map f = Except.error e := rfl

/-! ### Claim theorems -/

/-- C7: for every configured `max_pos`, the model's sinusoid encoder is
constructed with `max_timescale_init = 2 * max_pos` (`train.py:24`). -/
theorem mkModel_max_timescale_init
    (dim depth heads pos_scales in_features pos_dims max_pos num_classes : Nat)
    (cW : Nat → Nat → ℚ) (cB : Nat → ℚ) (qd : List Nat → ℚ)
    (qdev : Device) (qdt : Dtype) (oW : Nat → Nat → ℚ) (oB : Nat → ℚ)
    (invF : Nat → ℚ) :
    (mkModel dim depth heads pos_scales in_features pos_dims max_pos num_classes
        cW cB qd qdev qdt oW oB invF).positional_embedding.max_timescale_init
      = 2 * (max_pos : ℚ) := by
  simp [mkModel, LearnableSinusoidEncoding.init, mul_comm]

/-- C3: the model's sinusoid encoder has `pos_scales` frequency bands, and
`_compute_positional_embeddings` yields, for a position sequence whose
trailing axis has length `p` (the number of positional coordinates), a
positional embedding of trailing width `p * pos_scales * 2`. -/
theorem encoder_bands_and_embedding_width
    (dim depth heads pos_scales in_features pos_dims max_pos num_classes : Nat)
    (cW : Nat → Nat → ℚ) (cB : Nat → ℚ) (qd : List Nat → ℚ)
    (qdev : Device) (qdt : Dtype) (oW : Nat → Nat → ℚ) (oB : Nat → ℚ)
    (invF : Nat → ℚ) (qsin qcos : ℚ → ℚ) (positions : Tensor)
    (b n p : Nat) (hp : positions.shape = [b, n, p]) :
    (mkModel dim depth heads pos_scales in_features pos_dims max_pos num_classes
        cW cB qd qdev qdt oW oB invF).positional_embedding.num_bands = pos_scales
    ∧ ((mkModel dim depth heads pos_scales in_features pos_dims max_pos num_classes
        cW cB qd qdev qdt oW oB invF)._compute_positional_embeddings
          qsin qcos positions).map Tensor.shape
      = Except.ok [b, n, p * pos_scales * 2] := by
  constructor
  · simp [mkModel, LearnableSinusoidEncoding.init,
      LearnableSinusoidEncoding.num_bands]
  · simp [RelativePerformerModel._compute_positional_embeddings, mkModel,
      LearnableSinusoidEncoding.init, LearnableSinusoidEncoding.forward,
      rearrange_bn_pd, hp, mul_assoc]

/-- C3 witness: at `pos_scales = 3` and a `[1, 4, 2]` position sequence the
encoder has 3 bands and the flattened embedding width is `2 * 3 * 2`. -/
theorem encoder_bands_and_embedding_width_witness :
    (Tensor.mk [1, 4, 2] Device.cpu Dtype.float32 (fun _ => 0)).shape = [1, 4, 2]
    ∧ ((mkModel 8 2 2 3 1 2 32 10 (fun _ _ => 0) (fun _ => 0) (fun _ => 0)
          Device.cpu Dtype.float32 (fun _ _ => 0) (fun _ => 0)
          (fun _ => 0)).positional_embedding.num_bands = 3
        ∧ ((mkModel 8 2 2 3 1 2 32 10 (fun _ _ => 0) (fun _ => 0) (fun _ => 0)
          Device.cpu Dtype.float32 (fun _ _ => 0) (fun _ => 0)
          (fun _ => 0))._compute_positional_embeddings (fun _ => 0) (fun _ => 0)
          (Tensor.mk [1, 4, 2] Device.cpu Dtype.float32 (fun _ => 0))).map
            Tensor.shape
          = Except.ok [1, 4, 2 * 3 * 2]) :=
  ⟨rfl, encoder_bands_and_embedding_width 8 2 2 3 1 2 32 10 (fun _ _ => 0)
    (fun _ => 0) (fun _ => 0) Device.cpu Dtype.float32 (fun _ _ => 0)
    (fun _ => 0) (fun _ => 0) (fun _ => 0) (fun _ => 0)
    (Tensor.mk [1, 4, 2] Device.cpu Dtype.float32 (fun _ => 0)) 1 4 2 rfl⟩

/-- C9 counterexample: constructing the model with `pos_scales = 0` and
`pos_dims = 0` does not raise; `__init__` returns a model instance. -/
theorem init_accepts_invalid_config :
    ∃ m, RelativePerformerModel.init 8 2 2 0 1 0 32 10 (fun _ _ => 0)
        (fun _ => 0) (fun _ => 0) Device.cpu Dtype.float32 (fun _ _ => 0)
        (fun _ => 0) (fun _ => 0) = Except.ok m :=
  ⟨_, rfl⟩

/-- C9 amended: `RelativePerformerModel.__init__` performs no validation of
`pos_scales` (num_bands) or `pos_dims`; for `pos_scales = 0` or `pos_dims = 0`
it still returns a model instance rather than raising. -/
theorem init_no_validation
    (dim depth heads pos_scales in_features pos_dims max_pos num_classes : Nat)
    (cW : Nat → Nat → ℚ) (cB : Nat → ℚ) (qd : List Nat → ℚ)
    (qdev : Device) (qdt : Dtype) (oW : Nat → Nat → ℚ) (oB : Nat → ℚ)
    (invF : Nat → ℚ) (h : pos_scales = 0 ∨ pos_dims = 0) :
    ∃ m, RelativePerformerModel.init dim depth heads pos_scales in_features
        pos_dims max_pos num_classes cW cB qd qdev qdt oW oB invF
      = Except.ok m :=
  ⟨_, rfl⟩

/-- C9 amended, witness: at `pos_scales = 0` the constructor returns a model. -/
theorem init_no_validation_witness :
    ((0 : Nat) = 0 ∨ (2 : Nat) = 0)
    ∧ ∃ m, RelativePerformerModel.init 8 2 2 0 1 2 32 10 (fun _ _ => 0)
        (fun _ => 0) (fun _ => 0) Device.cpu Dtype.float32 (fun _ _ => 0)
        (fun _ => 0) (fun _ => 0) = Except.ok m :=
  ⟨Or.inl rfl, init_no_validation 8 2 2 0 1 2 32 10 (fun _ _ => 0)
    (fun _ => 0) (fun _ => 0) Device.cpu Dtype.float32 (fun _ _ => 0)
    (fun _ => 0) (fun _ => 0) (Or.inl rfl)⟩

/-- C5: the forward pass is deterministic — with fixed parameters (the model
value) and identical inputs it returns identical results — and it mutates no
model state: the state-passing reading returns the model unchanged. -/
theorem forward_deterministic_stateless (self : RelativePerformerModel)
    (qsin qcos : ℚ → ℚ) (x x2 : Tensor) (h : x = x2) :
    self.forward qsin qcos x = self.forward qsin qcos x2
    ∧ (self.forwardWithState qsin qcos x).2 = self :=
  ⟨by rw [h], rfl⟩

/-- C5 witness: two calls of `forward` on the same concrete input agree, and
the model is returned unchanged. -/
theorem forward_deterministic_stateless_witness :
    (Tensor.mk [1, 2, 2, 1] Device.cpu Dtype.float32 (fun _ => 1))
      = (Tensor.mk [1, 2, 2, 1] Device.cpu Dtype.float32 (fun _ => 1))
    ∧ ((mkModel 1 1 1 1 1 2 32 10 (fun _ _ => 1) (fun _ => 0) (fun _ => 99)
          Device.cpu Dtype.float32 (fun _ _ => 1) (fun _ => 0)
          (fun _ => 1)).forward (fun _ => 0) (fun _ => 0)
          (Tensor.mk [1, 2, 2, 1] Device.cpu Dtype.float32 (fun _ => 1))
        = (mkModel 1 1 1 1 1 2 32 10 (fun _ _ => 1) (fun _ => 0) (fun _ => 99)
          Device.cpu Dtype.float32 (fun _ _ => 1) (fun _ => 0)
          (fun _ => 1)).forward (fun _ => 0) (fun _ => 0)
          (Tensor.mk [1, 2, 2, 1] Device.cpu Dtype.float32 (fun _ => 1))
        ∧ ((mkModel 1 1 1 1 1 2 32 10 (fun _ _ => 1) (fun _ => 0) (fun _ => 99)
          Device.cpu Dtype.float32 (fun _ _ => 1) (fun _ => 0)
          (fun _ => 1)).forwardWithState (fun _ => 0) (fun _ => 0)
          (Tensor.mk [1, 2, 2, 1] Device.cpu Dtype.float32 (fun _ => 1))).2
        = mkModel 1 1 1 1 1 2 32 10 (fun _ _ => 1) (fun _ => 0) (fun _ => 99)
          Device.cpu Dtype.float32 (fun _ _ => 1) (fun _ => 0) (fun _ => 1)) :=
  ⟨rfl, forward_deterministic_stateless
    (mkModel 1 1 1 1 1 2 32 10 (fun _ _ => 1) (fun _ => 0) (fun _ => 99)
      Device.cpu Dtype.float32 (fun _ _ => 1) (fun _ => 0) (fun _ => 1))
    (fun _ => 0) (fun _ => 0)
    (Tensor.mk [1, 2, 2, 1] Device.cpu Dtype.float32 (fun _ => 1))
    (Tensor.mk [1, 2, 2, 1] Device.cpu Dtype.float32 (fun _ => 1)) rfl⟩

/-- C2: `_flatten_to_sequence` on a `[b, nx, ny, d]` grid returns a
row-major-flattened content sequence of shape `[b, nx*ny, d]` and a
batch-independent position sequence of shape `[1, nx*ny, 2]` in which the
position at flattened index `x*ny + y` is exactly the pair `(x, y)`. -/
theorem flatten_to_sequence_spec (self : RelativePerformerModel)
    (input : Tensor) (b nx ny d bi j x y : Nat)
    (hs : input.shape = [b, nx, ny, d]) (hx : x < nx) (hy : y < ny) :
    ((self._flatten_to_sequence input).map (fun ep => ep.1.shape)
        = Except.ok [b, nx * ny, d])
    ∧ ((self._flatten_to_sequence input).map (fun ep => ep.2.shape)
        = Except.ok [1, nx * ny, 2])
    ∧ ((self._flatten_to_sequence input).map
          (fun ep => ep.1.data [bi, x * ny + y, j])
        = Except.ok (input.data [bi, x, y, j]))
    ∧ ((self._flatten_to_sequence input).map
          (fun ep => ep.2.data [0, x * ny + y, 0])
        = Except.ok (x : ℚ))
    ∧ ((self._flatten_to_sequence input).map
          (fun ep => ep.2.data [0, x * ny + y, 1])
        = Except.ok (y : ℚ)) := by
  have hny0 : 0 < ny := Nat.lt_of_le_of_lt (Nat.zero_le y) hy
  have hdiv : (x * ny + y) / ny = x := by
    rw [mul_comm, Nat.mul_add_div hny0, Nat.div_eq_of_lt hy]
    exact Nat.add_zero x
  have hmod : (x * ny + y) % ny = y := by
    rw [mul_comm, Nat.mul_add_mod]
    exact Nat.mod_eq_of_lt hy
  refine ⟨?_, ?_, ?_, ?_, ?_⟩ <;>
    simp [RelativePerformerModel._flatten_to_sequence, hs, rearrange_b_xy_d,
      rearrange_xy_d_1, stackLast2, meshgrid2, arange, hdiv, hmod]

/-- A small concrete model: `dim = 1`, `in_features = 1`, `pos_dims = 2`,
`pos_scales = 1`, content weights 1 and biases 0, class query value 99. -/
def M1 : RelativePerformerModel :=
  mkModel 1 1 1 1 1 2 32 10 (fun _ _ => 1) (fun _ => 0) (fun _ => 99)
    Device.cpu Dtype.float32 (fun _ _ => 1) (fun _ => 0) (fun _ => 1)

/-- A concrete `[1, 2, 3, 1]` input grid whose data encodes its index. -/
def gridT : Tensor :=
  { shape := [1, 2, 3, 1], device := Device.cpu, dtype := Dtype.float32,
    data := fun idx =>
      ((idx.headD 0 + 10 * idx.getD 1 0 + 100 * idx.getD 2 0
        + 1000 * idx.getD 3 0 : Nat) : ℚ) }

/-- C2 witness: on the concrete `[1, 2, 3, 1]` grid, the flattened shapes are
`[1, 6, 1]` and `[1, 6, 2]`, and the position at flattened index
`1*3 + 2 = 5` is `(1, 2)`. -/
theorem flatten_to_sequence_spec_witness :
    (gridT.shape = [1, 2, 3, 1] ∧ 1 < 2 ∧ 2 < 3)
    ∧ (((M1._flatten_to_sequence gridT).map (fun ep => ep.1.shape)
          = Except.ok [1, 2 * 3, 1])
      ∧ ((M1._flatten_to_sequence gridT).map (fun ep => ep.2.shape)
          = Except.ok [1, 2 * 3, 2])
      ∧ ((M1._flatten_to_sequence gridT).map
            (fun ep => ep.1.data [0, 1 * 3 + 2, 0])
          = Except.ok (gridT.data [0, 1, 2, 0]))
      ∧ ((M1._flatten_to_sequence gridT).map
            (fun ep => ep.2.data [0, 1 * 3 + 2, 0])
          = Except.ok ((1 : Nat) : ℚ))
      ∧ ((M1._flatten_to_sequence gridT).map
            (fun ep => ep.2.data [0, 1 * 3 + 2, 1])
          = Except.ok ((2 : Nat) : ℚ))) :=
  ⟨⟨rfl, by decide, by decide⟩,
    flatten_to_sequence_spec M1 gridT 1 2 3 1 0 0 1 2 rfl (by decide) (by decide)⟩

/-- A concrete all-ones `[1, 2, 2, 1]` input grid. -/
def onesGrid : Tensor :=
  { shape := [1, 2, 2, 1], device := Device.cpu, dtype := Dtype.float32,
    data := fun _ => 1 }

/-- C1: contrary to the claim, `forward` (`train.py:103-109`) never calls
`_add_class_query`: on the `[1, 2, 2, 1]` all-ones grid the sequences handed
to the performer have length `2*2 = 4`, not `1 + 2*2`, and the element at
index 0 is the content embedding of grid cell `(0, 0)` (value 1), not the
learned class query (value 99) — even though the comment at `train.py:107`
and the existence of `_add_class_query` show the query was meant to be
prepended and its output read at index 0. -/
theorem forward_omits_class_query :
    ((M1.performerInputs (fun _ => 0) (fun _ => 0) onesGrid).map
        (fun ep => (ep.1.shape, ep.2.shape))
      = Except.ok ([1, 2 * 2, 1], [1, 2 * 2, 2 * (1 * 2)]))
    ∧ ((M1.performerInputs (fun _ => 0) (fun _ => 0) onesGrid).map
        (fun ep => ep.1.data [0, 0, 0])
      = Except.ok (1 : ℚ))
    ∧ M1.class_query.data [0] = 99
    ∧ (1 : ℚ) ≠ 99
    ∧ 2 * 2 ≠ 1 + 2 * 2 := by
  refine ⟨by decide, ?_, rfl, by norm_num, by decide⟩
  simp [M1, mkModel, RelativePerformerModel.performerInputs, Linear.forward,
    RelativePerformerModel._flatten_to_sequence,
    RelativePerformerModel._compute_positional_embeddings,
    LearnableSinusoidEncoding.forward, LearnableSinusoidEncoding.init,
    rearrange_b_xy_d, rearrange_xy_d_1, rearrange_bn_pd, stackLast2,
    meshgrid2, arange, onesGrid, sumRange]

/-- An input grid with `nx = 0`: shape `[2, 0, 4, 1]`. -/
def emptyGrid : Tensor :=
  { shape := [2, 0, 4, 1], device := Device.cpu, dtype := Dtype.float32,
    data := fun _ => 0 }

/-- C4 counterexample: for the input of shape `[2, 0, 4, 1]` (an empty grid,
`nx = 0`), `forward` raises (the `[:, 0]` read at `train.py:108` indexes an
empty axis) instead of returning logits of shape `[2, num_classes]`. -/
theorem forward_fails_on_empty_grid :
    isErr (M1.forward (fun _ => 0) (fun _ => 0) emptyGrid) = true := by
  decide

/-- C4 amended: for every non-empty input grid (`0 < nx`, `0 < ny`) of shape
`[b, nx, ny, in_features]`, `forward` returns logits of shape
`[b, num_classes]`; the output shape is independent of `dim`, `depth` and
`heads` (all of which are universally quantified here). -/
theorem forward_output_shape
    (dim depth heads pos_scales in_features pos_dims max_pos num_classes : Nat)
    (cW : Nat → Nat → ℚ) (cB : Nat → ℚ) (qd : List Nat → ℚ)
    (qdev : Device) (qdt : Dtype) (oW : Nat → Nat → ℚ) (oB : Nat → ℚ)
    (invF : Nat → ℚ) (qsin qcos : ℚ → ℚ) (x : Tensor) (b nx ny : Nat)
    (hs : x.shape = [b, nx, ny, in_features]) (hnx : 0 < nx) (hny : 0 < ny) :
    ((mkModel dim depth heads pos_scales in_features pos_dims max_pos num_classes
        cW cB qd qdev qdt oW oB invF).forward qsin qcos x).map Tensor.shape
      = Except.ok [b, num_classes] := by
  have hseq : 0 < nx * ny := Nat.mul_pos hnx hny
  simp [RelativePerformerModel.forward, RelativePerformerModel.performerInputs,
    Linear.forward, RelativePerformerModel._flatten_to_sequence,
    RelativePerformerModel._compute_positional_embeddings,
    LearnableSinusoidEncoding.forward, LearnableSinusoidEncoding.init, mkModel,
    rearrange_b_xy_d, rearrange_xy_d_1, rearrange_bn_pd, stackLast2, meshgrid2,
    arange, RelativePerformer.forward, selectSeq0, hs, hseq]

/-- The spec's example input shape `[batch=2, nx=4, ny=4, in_features=3]`. -/
def grid2443 : Tensor :=
  { shape := [2, 4, 4, 3], device := Device.cpu, dtype := Dtype.float32,
    data := fun _ => 0 }

/-- C4 amended, witness: for the `[2, 4, 4, 3]` input and a model with
`num_classes = 5`, `forward` returns logits of shape `[2, 5]`. -/
theorem forward_output_shape_witness :
    (grid2443.shape = [2, 4, 4, 3] ∧ 0 < 4 ∧ 0 < 4)
    ∧ ((mkModel 3 2 2 2 3 2 4 5 (fun _ _ => 0) (fun _ => 0) (fun _ => 0)
          Device.cpu Dtype.float32 (fun _ _ => 0) (fun _ => 0)
          (fun _ => 0)).forward (fun _ => 0) (fun _ => 0) grid2443).map
        Tensor.shape
      = Except.ok [2, 5] :=
  ⟨⟨rfl, by decide, by decide⟩,
    forward_output_shape 3 2 2 2 3 2 4 5 (fun _ _ => 0) (fun _ => 0)
      (fun _ => 0) Device.cpu Dtype.float32 (fun _ _ => 0) (fun _ => 0)
      (fun _ => 0) (fun _ => 0) (fun _ => 0) grid2443 2 4 4 rfl (by decide)
      (by decide)⟩

/-- C8: for two models differing only in `pos_scales` (`s1` vs `s2`; every
other configuration value and every learned parameter is shared), the content
and positional sequences handed to the attention capability have the same
sequence length `nx*ny` in both instantiations; only the trailing
(positional-embedding width) axis of the positional sequence differs
(`2*(s1*2)` vs `2*(s2*2)`). -/
theorem pos_scales_changes_only_pos_width
    (dim depth heads s1 s2 in_features pos_dims max_pos num_classes : Nat)
    (cW : Nat → Nat → ℚ) (cB : Nat → ℚ) (qd : List Nat → ℚ)
    (qdev : Device) (qdt : Dtype) (oW : Nat → Nat → ℚ) (oB : Nat → ℚ)
    (invF : Nat → ℚ) (qsin qcos : ℚ → ℚ) (x : Tensor) (b nx ny : Nat)
    (hs : x.shape = [b, nx, ny, in_features]) :
    (((mkModel dim depth heads s1 in_features pos_dims max_pos num_classes
          cW cB qd qdev qdt oW oB invF).performerInputs qsin qcos x).map
        (fun ep => (ep.1.shape, ep.2.shape))
      = Except.ok ([b, nx * ny, dim], [1, nx * ny, 2 * (s1 * 2)]))
    ∧ (((mkModel dim depth heads s2 in_features pos_dims max_pos num_classes
          cW cB qd qdev qdt oW oB invF).performerInputs qsin qcos x).map
        (fun ep => (ep.1.shape, ep.2.shape))
      = Except.ok ([b, nx * ny, dim], [1, nx * ny, 2 * (s2 * 2)])) := by
  constructor <;>
    simp [RelativePerformerModel.performerInputs, Linear.forward,
      RelativePerformerModel._flatten_to_sequence,
      RelativePerformerModel._compute_positional_embeddings,
      LearnableSinusoidEncoding.forward, LearnableSinusoidEncoding.init,
      mkModel, rearrange_b_xy_d, rearrange_xy_d_1, rearrange_bn_pd,
      stackLast2, meshgrid2, arange, hs]

/-- C8 witness: with `pos_scales` 1 vs 3 on the `[1, 2, 3, 1]` grid, both
instantiations produce sequences of length 6; the positional widths are 4
and 12. -/
theorem pos_scales_changes_only_pos_width_witness :
    gridT.shape = [1, 2, 3, 1]
    ∧ ((((mkModel 1 1 1 1 1 2 32 10 (fun _ _ => 1) (fun _ => 0) (fun _ => 99)
          Device.cpu Dtype.float32 (fun _ _ => 1) (fun _ => 0)
          (fun _ => 1)).performerInputs (fun _ => 0) (fun _ => 0) gridT).map
            (fun ep => (ep.1.shape, ep.2.shape))
          = Except.ok ([1, 2 * 3, 1], [1, 2 * 3, 2 * (1 * 2)]))
      ∧ (((mkModel 1 1 1 3 1 2 32 10 (fun _ _ => 1) (fun _ => 0) (fun _ => 99)
          Device.cpu Dtype.float32 (fun _ _ => 1) (fun _ => 0)
          (fun _ => 1)).performerInputs (fun _ => 0) (fun _ => 0) gridT).map
            (fun ep => (ep.1.shape, ep.2.shape))
          = Except.ok ([1, 2 * 3, 1], [1, 2 * 3, 2 * (3 * 2)]))) :=
  ⟨rfl, pos_scales_changes_only_pos_width 1 1 1 1 3 1 2 32 10 (fun _ _ => 1)
    (fun _ => 0) (fun _ => 99) Device.cpu Dtype.float32 (fun _ _ => 1)
    (fun _ => 0) (fun _ => 1) (fun _ => 0) (fun _ => 0) gridT 1 2 3 rfl⟩

/-- A positional-embedding sequence resident on GPU 0. -/
def posCuda : Tensor :=
  { shape := [1, 4, 4], device := Device.cuda 0, dtype := Dtype.float32,
    data := fun _ => 0 }

/-- A content-embedding sequence resident on GPU 0 (`dim = 1`). -/
def embCuda : Tensor :=
  { shape := [1, 4, 1], device := Device.cuda 0, dtype := Dtype.float32,
    data := fun _ => 0 }

/-- A `[1, 2, 2, 1]` float16 input grid resident on GPU 0. -/
def gridCuda : Tensor :=
  { shape := [1, 2, 2, 1], device := Device.cuda 0, dtype := Dtype.float16,
    data := fun _ => 0 }

/-- `M1` with all parameters placed on GPU 0 (as the training framework does
when training on GPU). -/
def M1cuda : RelativePerformerModel :=
  mkModel 1 1 1 1 1 2 32 10 (fun _ _ => 1) (fun _ => 0) (fun _ => 99)
    (Device.cuda 0) Dtype.float32 (fun _ _ => 1) (fun _ => 0) (fun _ => 1)

/-- C6: the position grid generated in `_flatten_to_sequence` does follow the
input's device and dtype (`train.py:58-62`), but the zero positional prefix
in `_add_class_query` is `torch.zeros(1, 1, pos_embedding_dim)` with no
`device=`/`dtype=` (`train.py:96`): it is created on the hard-coded default
device (CPU), so on a GPU-resident input its device differs from the input's
and the subsequent `torch.cat` raises. -/
theorem zeros_prefix_on_default_device :
    ((M1cuda._flatten_to_sequence gridCuda).map
        (fun ep => (ep.2.device, ep.2.dtype))
      = Except.ok (Device.cuda 0, Dtype.float16))
    ∧ (zeros3 1 1 4).device = Device.cpu
    ∧ (zeros3 1 1 4).dtype = Dtype.float32
    ∧ posCuda.device = Device.cuda 0
    ∧ (zeros3 1 1 4).device ≠ posCuda.device
    ∧ isErr (M1cuda._add_class_query embCuda posCuda) = true := by
  decide

/-- C10: `_add_class_query` broadcasts the class query of shape `(1, 1, dim)`
with `expand(bs, 1, 1)` (`train.py:89`), whose last requested size 1 must
match the existing size `dim`: for every `dim > 1` the call raises, and a
normal return is only possible when `dim = 1`. -/
theorem add_class_query_requires_dim_one
    (self : RelativePerformerModel) (embedding pos_embedding : Tensor)
    (dim : Nat) (hq : self.class_query.shape = [dim]) :
    (1 < dim → isErr (self._add_class_query embedding pos_embedding) = true)
    ∧ (isErr (self._add_class_query embedding pos_embedding) = false →
        dim = 1) := by
  by_cases hd : dim = 1
  · subst hd
    exact ⟨fun h1 => absurd h1 (lt_irrefl 1), fun _ => rfl⟩
  · have herr : isErr (self._add_class_query embedding pos_embedding) = true := by
      have hsh : (self.class_query.unsqueeze01).shape = [1, 1, dim] := by
        simp [Tensor.unsqueeze01, hq]
      have hexp : isErr ((self.class_query.unsqueeze01).expand
          [pos_embedding.shape.headD 0, 1, 1]) = true := by
        unfold Tensor.expand
        rw [if_neg]
        · rfl
        · intro hc
          have h2 := hc.2 2 (by norm_num)
          rw [hsh] at h2
          simp [List.getD] at h2
          rcases h2 with h2 | h2
          · exact hd h2.symm
          · exact hd h2
      unfold RelativePerformerModel._add_class_query
      rcases hps : pos_embedding.shape with _ | ⟨bs, rest⟩
      · rfl
      · by_cases hre : rest = []
        · simp [hre]
          rfl
        · rw [hps] at hexp
          simp only [List.headD] at hexp
          cases hE : (self.class_query.unsqueeze01).expand [bs, 1, 1] with
          | ok t => rw [hE] at hexp; simp [isErr] at hexp
          | error e => simp [hre, hE, isErr]
    exact ⟨fun _ => herr, fun hok => absurd (herr.symm.trans hok) (by decide)⟩

/-- A concrete model with content-embedding dimension `dim = 2`. -/
def M2 : RelativePerformerModel :=
  mkModel 2 1 1 1 1 2 32 10 (fun _ _ => 1) (fun _ => 0) (fun _ => 99)
    Device.cpu Dtype.float32 (fun _ _ => 1) (fun _ => 0) (fun _ => 1)

/-- A concrete `[1, 6, 2]` content-embedding sequence. -/
def embT : Tensor :=
  { shape := [1, 6, 2], device := Device.cpu, dtype := Dtype.float32,
    data := fun _ => 0 }

/-- A concrete `[1, 6, 4]` positional-embedding sequence. -/
def posT : Tensor :=
  { shape := [1, 6, 4], device := Device.cpu, dtype := Dtype.float32,
    data := fun _ => 0 }

/-- C10 witness: for the `dim = 2` model, `_add_class_query` raises. -/
theorem add_class_query_requires_dim_one_witness :
    M2.class_query.shape = [2]
    ∧ ((1 < 2 → isErr (M2._add_class_query embT posT) = true)
      ∧ (isErr (M2._add_class_query embT posT) = false → 2 = 1)) :=
  ⟨rfl, add_class_query_requires_dim_one M2 embT posT 2 rfl⟩
